import Mathlib

/-!
# Verification of the jp-diet-search pagination/caching/validation core

Shallow embedding of `src/jp_diet_search/core.py`, `client.py`, `queries.py`
and `exceptions.py`.  JSON payloads are modelled by the inductive `JVal`;
Python dicts by association lists with Python's first-match lookup and
in-place update semantics.  The HTTP layer is modelled by an explicit
`HttpOutcome` describing what one network GET would produce, and the
paginated search consumes a finite stub list of such outcomes.
-/

set_option autoImplicit false

namespace JpDiet

/-- JSON-like values as decoded by `response.json()` / `json.load`. -/
inductive JVal where
  | jNull : JVal
  | jBool : Bool → JVal
  | jInt : Int → JVal
  | jStr : String → JVal
  | jList : List JVal → JVal
  | jObj : List (String × JVal) → JVal
  deriving Repr

/-- A decoded JSON object / Python dict, as an association list.
Python dict keys are unique; lookup takes the first match. -/
abbrev Jdict := List (String × JVal)

/-- Structural lookup in the association list: `some v` when the key is
present (a present JSON `null` is `some jNull`), `none` when absent.
Code paths that only observe `d.get(k)` through Python — where a JSON
`null` decodes to `None` — must go through `pyGet` below. -/
def dictGet (d : Jdict) (k : String) : Option JVal :=
  match d with
  | [] => none
  | (k', v) :: rest => if k' = k then some v else dictGet rest k

/-- `d.get(k)` as Python sees it: JSON `null` decodes to `None`, so
`d.get(k)` yields `None` (here `none`) both when the key is absent and
when it is present with value `null` — the two are indistinguishable to
an `is None` check such as core.py 193's. -/
def pyGet (d : Jdict) (k : String) : Option JVal :=
  match dictGet d k with
  | some .jNull => none
  | v => v

/-- `d[k] = v`: overwrite in place when present, append when absent. -/
def dictSet (d : Jdict) (k : String) (v : JVal) : Jdict :=
  match d with
  | [] => [(k, v)]
  | (k', v') :: rest => if k' = k then (k, v) :: rest else (k', v') :: dictSet rest k v

/-- `d.setdefault(k, v)`: insert only when the key is absent
(a present `None` value is kept, not replaced). -/
def dictSetDefault (d : Jdict) (k : String) (v : JVal) : Jdict :=
  match dictGet d k with
  | some _ => d
  | none => dictSet d k v

/-- Python truthiness of a decoded JSON value (`if not x`). -/
def jTruthy : JVal → Bool
  | .jNull => false
  | .jBool b => b
  | .jInt n => n != 0
  | .jStr s => s ≠ ""
  | .jList xs => !xs.isEmpty
  | .jObj fs => !fs.isEmpty

/-- Truthiness of `data.get(k)` (`None`, i.e. an absent key, is falsy). -/
def jTruthyOpt : Option JVal → Bool
  | none => false
  | some v => jTruthy v

/-- Python `type(x)` rendering for a decoded JSON value, as interpolated
into the unexpected-shape error message. -/
def jTypeName : JVal → String
  | .jNull => "<class 'NoneType'>"
  | .jBool _ => "<class 'bool'>"
  | .jInt _ => "<class 'int'>"
  | .jStr _ => "<class 'str'>"
  | .jList _ => "<class 'list'>"
  | .jObj _ => "<class 'dict'>"

/-!
## Error taxonomy (`exceptions.py`)

The Python classes form a hierarchy:
`DietSearchRequestError <- DietSearchParseError` and
`DietSearchAPIError <- DietSearchRateLimitError`, all under
`DietSearchError`.  We model a raised exception by a flat inductive and
recover the subclass relations through the `isa` predicates below, which
mirror Python's `isinstance` checks. -/
inductive DietError where
  | requestError (msg : String) : DietError
  | parseError (msg : String) : DietError
  | apiError (msg : String) (details : List String) : DietError
  | rateLimitError (msg : String) (details : List String) : DietError
  /-- Artifact of the finite stub-server model only: the loop asked for a
  page beyond the supplied stub list.  Never raised by the real code. -/
  | stubExhausted : DietError
  deriving Repr

/-- `isinstance(e, DietSearchRequestError)` — true for the request-error
class and its `DietSearchParseError` subclass. -/
def isaRequestError : DietError → Bool
  | .requestError _ => true
  | .parseError _ => true
  | _ => false

/-- `isinstance(e, DietSearchParseError)`. -/
def isaParseError : DietError → Bool
  | .parseError _ => true
  | _ => false

/-- `isinstance(e, DietSearchAPIError)` — true for the API-error class and
its `DietSearchRateLimitError` subclass. -/
def isaAPIError : DietError → Bool
  | .apiError _ _ => true
  | .rateLimitError _ _ => true
  | _ => false

/-- `isinstance(e, DietSearchRateLimitError)`. -/
def isaRateLimitError : DietError → Bool
  | .rateLimitError _ _ => true
  | _ => false

/-!
## Limit normalization

`_DietCore.sanitize_limit` (core.py lines 148–158) raises
`DietSearchRequestError` for a non-positive limit, while
`DietSearchClient._sanitize_limit` (client.py lines 182–199) silently
returns `None`.  The input is typed `Optional[int]`, so the
`int(...)`-conversion failure branch of both functions is unreachable here
and is not modelled. -/

/-- `_DietCore.sanitize_limit` (core.py). -/
def sanitize_limit (limit_total : Option Int) : Except DietError (Option Int) :=
  match limit_total with
  | none => .ok none
  | some value =>
    if value ≤ 0 then
      .error (.requestError ("limit_total must be positive: " ++ toString value))
    else
      .ok (some value)

/-- `DietSearchClient._sanitize_limit` (client.py): `None -> None`,
`<= 0 -> None` (treated as "no limit"), `> 0 -> the value`. -/
def client_sanitize_limit (limit_total : Option Int) : Option Int :=
  match limit_total with
  | none => none
  | some value => if value ≤ 0 then none else some value

/-!
## "At least one condition" check on wire parameters (core.py 124–146)
-/

/-- The sixteen wire-parameter condition keys of
`_DietCore.check_required_any_condition`. -/
def conditionKeys : List String :=
  ["nameOfHouse", "nameOfMeeting", "any", "speaker", "from", "until",
   "speechNumber", "speakerPosition", "speakerGroup", "speakerRole",
   "speechID", "issueID", "sessionFrom", "sessionTo", "issueFrom", "issueTo"]

/-- `params[k] not in ("", None)`: a present value counts unless it is
`None` or the empty string (numbers, including 0, count). -/
def isCondVal : JVal → Bool
  | .jNull => false
  | .jStr s => s ≠ ""
  | _ => true

/-- `any(k in params and params[k] not in ("", None) for k in keys)`. -/
def hasCondition (params : Jdict) : Bool :=
  conditionKeys.any fun k =>
    match dictGet params k with
    | some v => isCondVal v
    | none => false

/-!
## Cache store (core.py 52–81)

The filesystem under the cache directory is a map from file names to
stored contents; a stored content either decodes (`valid d`) or raises in
`json.load` (`corrupt`).  `cache_dir = None` (caching disabled) is the
`none` case of `Option FS`.  The SHA-256 digest step of `_cache_key` is
not modelled: no claim concerns the digest, so the key is the pre-hash
payload (endpoint + sorted params), which determines the digest. -/

/-- Contents of one cache file as seen by `json.load`. -/
inductive FileData where
  | corrupt : FileData
  | valid : Jdict → FileData

/-- The cache directory's files: name ↦ contents. -/
abbrev FS := List (String × FileData)

def fsLookup (fs : FS) (k : String) : Option FileData :=
  match fs with
  | [] => none
  | (k', v) :: rest => if k' = k then some v else fsLookup rest k

def fsInsert (fs : FS) (k : String) (v : FileData) : FS :=
  match fs with
  | [] => [(k, v)]
  | (k', v') :: rest => if k' = k then (k, v) :: rest else (k', v') :: fsInsert rest k v

/-- `_cache_key` up to the (injective-on-its-input) hex digest: the
serialized payload of endpoint and key-sorted params. -/
def cache_key (endpoint : String) (params : Jdict) : String :=
  let sorted := params.map Prod.fst |>.mergeSort (fun a b => a ≤ b)
  endpoint ++ "|" ++ String.intercalate "," sorted

/-- `_DietCore._load_from_cache`: absent directory, unknown key and
undecodable contents all yield `None`. -/
def load_from_cache (cacheDir : Option FS) (endpoint : String) (params : Jdict) :
    Option Jdict :=
  match cacheDir with
  | none => none
  | some fs =>
    match fsLookup fs (cache_key endpoint params) with
    | none => none
    | some .corrupt => none
    | some (.valid d) => some d

/-- The underlying `open`/`json.dump` write, which may fail (disk full,
permission denied); `ioFail` says whether this particular write fails. -/
def writeFileModel (fs : FS) (k : String) (d : Jdict) (ioFail : Bool) :
    Except String FS :=
  if ioFail then .error "io failure" else .ok (fsInsert fs k (.valid d))

/-- `_DietCore._save_to_cache`: a no-op without a cache directory; any
write failure is caught and discarded (the state is left unchanged), so
the function is total — it never propagates an error. -/
def save_to_cache (cacheDir : Option FS) (ioFail : Bool) (endpoint : String)
    (params : Jdict) (data : Jdict) : Option FS :=
  match cacheDir with
  | none => none
  | some fs =>
    match writeFileModel fs (cache_key endpoint params) data ioFail with
    | .error _ => some fs
    | .ok fs' => some fs'

/-!
## Transport: `_DietCore._request_json` (core.py 85–120)
-/

/-- What one `session.get` would produce: either a transport-level
exception (`requests.RequestException`) or a response with a status code,
a body text, and the result of `r.json()` (`.error` when the body is not
decodable, carrying the exception's text). -/
inductive HttpOutcome where
  | transportError (msg : String) : HttpOutcome
  | response (status : Nat) (body : String) (json : Except String Jdict) : HttpOutcome

/-- `[body[:500]] if body else None` after `body = (r.text or "").strip()`;
`DietSearchAPIError.__init__` turns a `None` details into `[]`. -/
def bodyDetails (body : String) : List String :=
  let b := body.trim
  if b = "" then [] else [b.take 500]

/-- `_DietCore._request_json`.  Returns the raised exception or the decoded
data, paired with the cache state after the call (the call reads the cache
first and writes it only on the successful network path). -/
def request_json (cacheDir : Option FS) (ioFail : Bool) (endpoint : String)
    (params : Jdict) (outcome : HttpOutcome) :
    Except DietError Jdict × Option FS :=
  match load_from_cache cacheDir endpoint params with
  | some cached => (.ok cached, cacheDir)
  | none =>
    match outcome with
    | .transportError msg =>
      (.error (.requestError ("Request failed: " ++ msg)), cacheDir)
    | .response status body json =>
      if status = 429 then
        (.error (.rateLimitError ("HTTP 429 (rate limit exceeded) for " ++ endpoint)
          (bodyDetails body)), cacheDir)
      else if status ≠ 200 then
        (.error (.apiError ("HTTP " ++ toString status ++ " for " ++ endpoint)
          (bodyDetails body)), cacheDir)
      else
        match json with
        | .error e =>
          (.error (.parseError ("Failed to parse JSON response: " ++ e)), cacheDir)
        | .ok data =>
          (.ok data, save_to_cache cacheDir ioFail endpoint params data)

/-!
## Pagination search: `_DietCore.search_records` (core.py 162–236)
-/

/-- The dict returned by `search_records`. -/
structure SearchResult where
  endpoint : String
  params : Jdict
  totalRecords : Option JVal
  retrievedRecords : Nat
  pages : Nat
  records : List JVal
  truncated : Bool
  deriving Repr

/-- Result of a `search_records` call against the stub server, with two
ghost observations the theorems need: the `cur_params` passed to each
`_request_json` call in order (`trace`), and the final cache state. -/
structure SearchOutcome where
  result : Except DietError SearchResult
  trace : List Jdict
  fs : Option FS

/-- `isinstance(rec, dict) ? rec : {"value": rec}` (core.py 200–205). -/
def wrapRec : JVal → JVal
  | .jObj fields => .jObj fields
  | v => .jObj [("value", v)]

/-- The `for rec in raw_records` loop body (core.py 200–217): append each
(wrapped) record; after each append, if the count has reached the limit,
truncate to the limit and signal early return (`.inr`); otherwise continue
and finally yield the grown accumulator (`.inl`). -/
def appendLoop (limit : Option Int) (acc : List JVal) :
    List JVal → List JVal ⊕ List JVal
  | [] => .inl acc
  | r :: rs =>
    let acc' := acc ++ [wrapRec r]
    match limit with
    | some l =>
      if l ≤ (acc'.length : Int) then .inr (acc'.take l.toNat)
      else appendLoop (some l) acc' rs
    | none => appendLoop none acc' rs

/-- The `while True` loop of `search_records`, structurally recursive on
the stub server's remaining page outcomes.  `time.sleep` between pages is
a pure delay and is not modelled. -/
def searchLoop (ioFail : Bool) (endpoint record_key : String) (origParams : Jdict)
    (limit : Option Int) :
    List HttpOutcome → Option FS → Jdict → List JVal → Nat → Option JVal →
    List Jdict → SearchOutcome
  | [], fs, _, _, _, _, trace =>
    { result := .error .stubExhausted, trace := trace, fs := fs }
  | out :: rest, fs, cur_params, acc, pages, total, trace =>
    let pages' := pages + 1
    let req := request_json fs ioFail endpoint cur_params out
    let trace' := trace ++ [cur_params]
    match req.1 with
    | .error e => { result := .error e, trace := trace', fs := req.2 }
    | .ok data =>
      let total' := match total with
        | none => pyGet data "totalRecords"
        | some t => some t
      let rawv := (dictGet data record_key).getD (.jList [])
      let raw_records := if jTruthy rawv then rawv else .jList []
      match raw_records with
      | .jList recs =>
        match appendLoop limit acc recs with
        | .inr final =>
          { result := .ok
              { endpoint := endpoint, params := origParams, totalRecords := total'
                retrievedRecords := final.length, pages := pages',
                records := final, truncated := true }
            trace := trace', fs := req.2 }
        | .inl acc' =>
          let next_pos := dictGet data "nextRecordPosition"
          if jTruthyOpt next_pos then
            searchLoop ioFail endpoint record_key origParams limit rest req.2
              (dictSet cur_params "startRecord" ((next_pos).getD .jNull))
              acc' pages' total' trace'
          else
            { result := .ok
                { endpoint := endpoint, params := origParams, totalRecords := total'
                  retrievedRecords := acc'.length, pages := pages',
                  records := acc', truncated := false }
              trace := trace', fs := req.2 }
      | other =>
        { result := .error (.requestError
            ("Unexpected '" ++ record_key ++ "' shape: " ++ jTypeName other))
          trace := trace', fs := req.2 }

/-- `_DietCore.search_records`: check the condition requirement, normalize
the limit, then run the pagination loop on a copy of the caller's params.
The `server` list is the stub of successive network outcomes. -/
def search_records (cacheDir : Option FS) (ioFail : Bool)
    (endpoint record_key : String) (params : Jdict) (limit_total : Option Int)
    (server : List HttpOutcome) : SearchOutcome :=
  if hasCondition params then
    match sanitize_limit limit_total with
    | .error e => { result := .error e, trace := [], fs := cacheDir }
    | .ok limit =>
      searchLoop ioFail endpoint record_key params limit server cacheDir
        params [] 0 none []
  else
    { result := .error (.apiError "検索条件を指定してください。" []), trace := [], fs := cacheDir }

/-!
## Client-side seeding (client.py 203–215, 257–267)

`DietSearchClient._search_meetings` / `_search_speeches` seed the wire
parameters before their first fetch: `maximumRecords` defaults to 10 for
the full-meeting endpoint and 100 otherwise, and `startRecord` defaults
to 1.  (`_DietCore.search_records` performs no such seeding.) -/
def clientSeedParams (is_full : Bool) (params : Jdict) : Jdict :=
  let max_rec : Int := if is_full then 10 else 100
  let p1 := dictSetDefault params "maximumRecords" (.jInt max_rec)
  dictSetDefault p1 "startRecord" (.jInt 1)

/-!
## Query model (`queries.py`)

`BaseQuery` is a pydantic model with `extra="forbid"` (unknown field names
are rejected by construction — in the embedding, `QueryFields` has exactly
the declared fields, so this is structural).  Constraints: `start_record`
and `maximum_records` carry `ge=1`, `record_packing` is the literal
`"json" | "xml"`; each endpoint subclass adds a `field_validator` ceiling
on `maximum_records`; the `model_validator` `require_some_condition` runs
last.  Pydantic collects all field errors; the claims only exercise
single-violation inputs, so validation is modelled as the first failing
check in pydantic's order. -/
structure QueryFields where
  start_record : Option Int := none
  maximum_records : Option Int := none
  record_packing : Option String := some "json"
  name_of_house : Option String := none
  name_of_meeting : Option String := none
  any : Option String := none
  speaker : Option String := none
  from_date : Option String := none
  until_date : Option String := none
  supplement_and_appendix : Option Bool := none
  contents_and_index : Option Bool := none
  search_range : Option String := none
  closing : Option Bool := none
  speech_number : Option Int := none
  speaker_position : Option String := none
  speaker_group : Option String := none
  speaker_role : Option String := none
  speech_id : Option String := none
  issue_id : Option String := none
  session_from : Option Int := none
  session_to : Option Int := none
  issue_from : Option Int := none
  issue_to : Option Int := none

/-- `getattr(self, k) not in (None, "")` for an optional string field. -/
def strCond : Option String → Bool
  | none => false
  | some s => s ≠ ""

/-- `getattr(self, k) not in (None, "")` for an optional int field: any
present integer counts (an int never equals `""`). -/
def intCond : Option Int → Bool
  | none => false
  | some _ => true

/-- `require_some_condition` (queries.py 83–105): at least one of the
sixteen listed condition fields is neither `None` nor `""`. -/
def condSatisfied (q : QueryFields) : Bool :=
  strCond q.name_of_house || strCond q.name_of_meeting || strCond q.any ||
  strCond q.speaker || strCond q.from_date || strCond q.until_date ||
  intCond q.speech_number || strCond q.speaker_position ||
  strCond q.speaker_group || strCond q.speaker_role || strCond q.speech_id ||
  strCond q.issue_id || intCond q.session_from || intCond q.session_to ||
  intCond q.issue_from || intCond q.issue_to

/-- `Field(ge=1)`: unset passes, a set value must be ≥ 1. -/
def ge1 : Option Int → Bool
  | none => true
  | some v => 1 ≤ v

/-- `Literal["json", "xml"]` on `record_packing`. -/
def validPacking : Option String → Bool
  | none => true
  | some s => s = "json" || s = "xml"

/-- Construction-time validation shared by `BaseQuery` and its subclasses:
field constraints, then the subclass's `maximum_records` ceiling (when
`ceiling` is given), then `require_some_condition`. -/
def validateQuery (ceiling : Option (Int × String)) (q : QueryFields) :
    Except String QueryFields :=
  if ¬ge1 q.start_record then
    .error "start_record must be >= 1"
  else if ¬ge1 q.maximum_records then
    .error "maximum_records must be >= 1"
  else if ¬validPacking q.record_packing then
    .error "record_packing must be json or xml"
  else
    match ceiling with
    | some (c, msg) =>
      match q.maximum_records with
      | some v =>
        if c < v then .error msg
        else if ¬condSatisfied q then
          .error "At least one search condition is required."
        else .ok q
      | none =>
        if ¬condSatisfied q then
          .error "At least one search condition is required."
        else .ok q
    | none =>
      if ¬condSatisfied q then
        .error "At least one search condition is required."
      else .ok q

/-- Constructing a bare `BaseQuery`. -/
def validateBaseQuery : QueryFields → Except String QueryFields :=
  validateQuery none

/-- Constructing a `MeetingListQuery` (`/meeting_list`, ceiling 100). -/
def validateMeetingListQuery : QueryFields → Except String QueryFields :=
  validateQuery (some (100, "meeting_list maximum_records must be 1..100"))

/-- Constructing a `SpeechQuery` (`/speech`, ceiling 100). -/
def validateSpeechQuery : QueryFields → Except String QueryFields :=
  validateQuery (some (100, "speech maximum_records must be 1..100"))

/-- Constructing a `MeetingQuery` (`/meeting`, full meeting text,
ceiling 10). -/
def validateMeetingQuery : QueryFields → Except String QueryFields :=
  validateQuery (some (10, "meeting maximum_records must be 1..10"))

/-!
## Structured stub pages

The pagination theorems quantify over structured page descriptions and
build the decoded JSON dict the loop reads, so that hypotheses about
cursors and record counts can be stated directly. -/
structure PageSpec where
  /-- the `totalRecords` field; `none` means the key is absent. -/
  total : Option JVal := none
  /-- the records under the record key (always a proper JSON list here). -/
  recs : List JVal := []
  /-- the `nextRecordPosition` field; `none` means the key is absent. -/
  next : Option JVal := none

/-- The decoded page body for a record key `rk`. -/
def pageDict (rk : String) (p : PageSpec) : Jdict :=
  (match p.total with | some t => [("totalRecords", t)] | none => [])
    ++ [(rk, .jList p.recs)]
    ++ (match p.next with | some v => [("nextRecordPosition", v)] | none => [])

/-- The stub network outcome delivering that page with HTTP 200. -/
def pageOutcome (rk : String) (p : PageSpec) : HttpOutcome :=
  .response 200 "" (.ok (pageDict rk p))

/-- A record key is `plain` when it does not collide with the two field
names the pagination loop itself reads (both real keys, `meetingRecord`
and `speechRecord`, are plain). -/
def plainKey (rk : String) : Prop :=
  rk ≠ "totalRecords" ∧ rk ≠ "nextRecordPosition"

/-- The first page of a run described by `init ++ [last]`. -/
def firstPage (init : List PageSpec) (last : PageSpec) : PageSpec :=
  init.headD last

/-- A stub page's `totalRecords` as Python reads it through
`data.get("totalRecords")`: a present JSON `null` decodes to `None`,
indistinguishable from an absent key. -/
def pageTotal (p : PageSpec) : Option JVal :=
  match p.total with
  | some .jNull => none
  | v => v

/-- How `search_records` folds the per-page `totalRecords` fields into its
running `total_records` (core.py 193–194): the running value, once not
`None`, is frozen; while it is `None` — which is the case both when every
page so far had the field absent and when it was a JSON `null`, since
`data.get` returns `None` for both — each page's field is read. -/
def totalFold (t : Option JVal) : List PageSpec → Option JVal
  | [] => t
  | p :: rest => totalFold (match t with | none => pageTotal p | some v => some v) rest

/-- Minimal number of pages, by record count, needed to accumulate `L`
records: the page count after which the running total first reaches `L`.
Used to state that the cap truncation fetches no more pages than
necessary. -/
def minPages (L : Nat) : List Nat → Nat
  | [] => 0
  | c :: cs => if L ≤ c then 1 else 1 + minPages (L - c) cs

/-- The sequence of `cur_params` dicts the loop passes to `_request_json`,
one per page: the cursor field is overwritten after each page. -/
def curTrace (cur : Jdict) : List PageSpec → List Jdict
  | [] => []
  | p :: rest => cur :: curTrace (dictSet cur "startRecord" (p.next.getD .jNull)) rest

/-!
## Helper lemmas
-/

theorem dictGet_dictSet_self (d : Jdict) (k : String) (v : JVal) :
    dictGet (dictSet d k v) k = some v := by
  induction d with
  | nil => simp [dictSet, dictGet]
  | cons kv rest ih =>
    obtain ⟨k0, v0⟩ := kv
    by_cases h0 : k0 = k
    · subst h0; simp [dictSet, dictGet]
    · simp [dictSet, dictGet, h0, ih]

theorem dictGet_dictSet_ne (d : Jdict) (k k' : String) (v : JVal) (h : k ≠ k') :
    dictGet (dictSet d k v) k' = dictGet d k' := by
  induction d with
  | nil => simp [dictSet, dictGet, h]
  | cons kv rest ih =>
    obtain ⟨k0, v0⟩ := kv
    by_cases h0 : k0 = k
    · subst h0; simp [dictSet, dictGet, h]
    · simp [dictSet, dictGet, h0, ih]

theorem dictSetDefault_absent (d : Jdict) (k : String) (v : JVal)
    (h : dictGet d k = none) : dictSetDefault d k v = dictSet d k v := by
  simp [dictSetDefault, h]

theorem dictSetDefault_present (d : Jdict) (k : String) (v w : JVal)
    (h : dictGet d k = some w) : dictSetDefault d k v = d := by
  simp [dictSetDefault, h]

theorem dictGet_dictSetDefault_ne (d : Jdict) (k k' : String) (v : JVal)
    (h : k ≠ k') : dictGet (dictSetDefault d k v) k' = dictGet d k' := by
  unfold dictSetDefault
  cases hg : dictGet d k with
  | some w => rfl
  | none => exact dictGet_dictSet_ne d k k' v h

theorem request_json_none_page (io : Bool) (ep : String) (cur : Jdict)
    (rk : String) (p : PageSpec) :
    request_json none io ep cur (pageOutcome rk p) = (.ok (pageDict rk p), none) := rfl

theorem dictGet_pageDict_total (rk : String) (p : PageSpec)
    (h : rk ≠ "totalRecords") :
    dictGet (pageDict rk p) "totalRecords" = p.total := by
  cases ht : p.total <;> cases hn : p.next <;>
    simp [pageDict, dictGet, ht, hn, h]

theorem pyGet_pageDict_total (rk : String) (p : PageSpec)
    (h : rk ≠ "totalRecords") :
    pyGet (pageDict rk p) "totalRecords" = pageTotal p := by
  unfold pyGet pageTotal
  rw [dictGet_pageDict_total rk p h]

theorem dictGet_pageDict_self (rk : String) (p : PageSpec)
    (h : rk ≠ "totalRecords") :
    dictGet (pageDict rk p) rk = some (.jList p.recs) := by
  cases ht : p.total <;> cases hn : p.next <;>
    simp [pageDict, dictGet, ht, hn, Ne.symm h]

theorem dictGet_pageDict_next (rk : String) (p : PageSpec)
    (h2 : rk ≠ "nextRecordPosition") :
    dictGet (pageDict rk p) "nextRecordPosition" = p.next := by
  cases ht : p.total <;> cases hn : p.next <;>
    simp [pageDict, dictGet, ht, hn, h2]

theorem jList_or_empty (recs : List JVal) :
    (if jTruthy (.jList recs) then JVal.jList recs else .jList []) = .jList recs := by
  cases recs <;> simp [jTruthy]

theorem appendLoop_none (rs : List JVal) : ∀ acc : List JVal,
    appendLoop none acc rs = .inl (acc ++ rs.map wrapRec) := by
  induction rs with
  | nil => intro acc; simp [appendLoop]
  | cons r rs ih =>
    intro acc
    simp only [appendLoop, ih, List.map_cons, List.append_assoc, List.singleton_append]

theorem appendLoop_under (rs : List JVal) : ∀ (acc : List JVal) (L : Int),
    (acc.length : Int) + rs.length < L →
    appendLoop (some L) acc rs = .inl (acc ++ rs.map wrapRec) := by
  induction rs with
  | nil => intro acc L _; simp [appendLoop]
  | cons r rs ih =>
    intro acc L h
    have hlen : ((acc ++ [wrapRec r]).length : Int) = acc.length + 1 := by
      simp
    have hnot : ¬(L ≤ ((acc ++ [wrapRec r]).length : Int)) := by
      rw [hlen]; simp at h ⊢; omega
    have hrec := ih (acc ++ [wrapRec r]) L (by rw [hlen]; simp at h ⊢; omega)
    simp only [appendLoop, if_neg hnot, hrec, List.map_cons, List.append_assoc,
      List.singleton_append]

theorem appendLoop_hit (rs : List JVal) : ∀ (acc : List JVal) (L : Int),
    (acc.length : Int) < L → L ≤ (acc.length : Int) + rs.length →
    ∃ out, appendLoop (some L) acc rs = .inr out ∧ out.length = L.toNat := by
  induction rs with
  | nil => intro acc L h1 h2; simp at h2; omega
  | cons r rs ih =>
    intro acc L h1 h2
    by_cases hc : L ≤ ((acc ++ [wrapRec r]).length : Int)
    · refine ⟨(acc ++ [wrapRec r]).take L.toNat, ?_, ?_⟩
      · simp only [appendLoop, if_pos hc]
      · simp only [List.length_take, List.length_append, List.length_cons]
        simp at hc
        omega
    · have hrec := ih (acc ++ [wrapRec r]) L (by simp at hc ⊢; omega)
        (by simp at h2 ⊢; omega)
      obtain ⟨out, heq, hlen⟩ := hrec
      exact ⟨out, by simp only [appendLoop, if_neg hc, heq], hlen⟩

theorem curTrace_length (ps : List PageSpec) : ∀ cur, (curTrace cur ps).length = ps.length := by
  induction ps with
  | nil => intro cur; rfl
  | cons p rest ih => intro cur; simp [curTrace, ih]

theorem totalFold_some (ps : List PageSpec) (v : JVal) :
    totalFold (some v) ps = some v := by
  induction ps with
  | nil => rfl
  | cons p rest ih => simp [totalFold, ih]

/-- One unfolding of the pagination loop on a stub page with no cache
directory: the whole page is consumed, the total is folded, and the loop
either follows a truthy cursor or returns untruncated. -/
theorem searchLoop_uncapped (io : Bool) (ep rk : String) (orig : Jdict)
    (hrk : plainKey rk) (init : List PageSpec) (last : PageSpec)
    (hmid : ∀ p ∈ init, jTruthyOpt p.next = true)
    (hlast : jTruthyOpt last.next = false) :
    ∀ (cur : Jdict) (acc : List JVal) (pages : Nat) (total : Option JVal)
      (trace : List Jdict),
    searchLoop io ep rk orig none ((init ++ [last]).map (pageOutcome rk)) none
        cur acc pages total trace =
      { result := .ok
          { endpoint := ep, params := orig
            totalRecords := totalFold total (init ++ [last])
            retrievedRecords :=
              (acc ++ ((init ++ [last]).flatMap PageSpec.recs).map wrapRec).length
            pages := pages + (init.length + 1)
            records := acc ++ ((init ++ [last]).flatMap PageSpec.recs).map wrapRec
            truncated := false }
        trace := trace ++ curTrace cur (init ++ [last])
        fs := none } := by
  induction init with
  | nil =>
    intro cur acc pages total trace
    simp only [List.nil_append, List.map_cons, List.map_nil, searchLoop,
      request_json_none_page, dictGet_pageDict_self rk last hrk.1,
      Option.getD_some, jList_or_empty, appendLoop_none,
      dictGet_pageDict_next rk last hrk.2, hlast, Bool.false_eq_true,
      if_false, pyGet_pageDict_total rk last hrk.1]
    simp [totalFold, curTrace]
  | cons p init' ih =>
    intro cur acc pages total trace
    have hp : jTruthyOpt p.next = true := hmid p (by simp)
    have hmid' : ∀ q ∈ init', jTruthyOpt q.next = true := fun q hq =>
      hmid q (by simp [hq])
    simp only [List.cons_append, List.map_cons, searchLoop,
      request_json_none_page, dictGet_pageDict_self rk p hrk.1,
      Option.getD_some, jList_or_empty, appendLoop_none,
      dictGet_pageDict_next rk p hrk.2, hp, if_true,
      pyGet_pageDict_total rk p hrk.1, List.append_eq]
    rw [ih hmid']
    simp [totalFold, curTrace, List.append_assoc]
    omega

/-- The pagination loop under a positive cap `L`, on stub pages that
together still hold at least `L - |acc|` records: it returns truncated
with exactly `L` records after exactly the minimal number of further
pages. -/
theorem searchLoop_capped (io : Bool) (ep rk : String) (orig : Jdict)
    (hrk : plainKey rk) (L : Int) (hL : 0 < L) :
    ∀ (ps : List PageSpec) (cur : Jdict) (acc : List JVal) (pages : Nat)
      (total : Option JVal) (trace : List Jdict),
      (acc.length : Int) < L →
      L ≤ (acc.length : Int) + ((ps.map fun p => p.recs.length).sum : Int) →
      (∀ p ∈ ps.dropLast, jTruthyOpt p.next = true) →
      ∃ r, (searchLoop io ep rk orig (some L) (ps.map (pageOutcome rk)) none
              cur acc pages total trace).result = .ok r
        ∧ r.truncated = true
        ∧ r.records.length = L.toNat
        ∧ r.retrievedRecords = L.toNat
        ∧ r.pages = pages + minPages (L.toNat - acc.length)
            (ps.map fun p => p.recs.length)
        ∧ (searchLoop io ep rk orig (some L) (ps.map (pageOutcome rk)) none
              cur acc pages total trace).trace.length
            = trace.length + minPages (L.toNat - acc.length)
                (ps.map fun p => p.recs.length) := by
  intro ps
  induction ps with
  | nil =>
    intro cur acc pages total trace h1 h2 _
    simp at h2
    omega
  | cons p rest ih =>
    intro cur acc pages total trace h1 h2 hmid
    by_cases hcap : L ≤ (acc.length : Int) + p.recs.length
    · obtain ⟨out, heq, hlen⟩ := appendLoop_hit p.recs acc L h1
        (by omega)
      have hmin : minPages (L.toNat - acc.length)
          ((p :: rest).map fun q => q.recs.length) = 1 := by
        simp only [List.map_cons, minPages]
        rw [if_pos (by omega)]
      have hstep : searchLoop io ep rk orig (some L)
          ((p :: rest).map (pageOutcome rk)) none cur acc pages total trace =
          { result := .ok
              { endpoint := ep, params := orig
                totalRecords := match total with | none => pageTotal p | some t => some t
                retrievedRecords := out.length, pages := pages + 1
                records := out, truncated := true }
            trace := trace ++ [cur], fs := none } := by
        simp only [List.map_cons, searchLoop, request_json_none_page,
          dictGet_pageDict_self rk p hrk.1, Option.getD_some, jList_or_empty,
          heq, pyGet_pageDict_total rk p hrk.1]
      refine ⟨_, by rw [hstep], rfl, hlen, hlen, ?_, ?_⟩
      · rw [hmin]
      · rw [hstep, hmin]
        simp
    · have hunder := appendLoop_under p.recs acc L (by omega)
      have hrest : rest ≠ [] := by
        rintro rfl
        simp at h2
        omega
      have hp : jTruthyOpt p.next = true := by
        have : (p :: rest).dropLast = p :: rest.dropLast := by
          cases rest with
          | nil => exact absurd rfl hrest
          | cons q t => rfl
        exact hmid p (by rw [this]; simp)
      have hmid' : ∀ q ∈ rest.dropLast, jTruthyOpt q.next = true := by
        intro q hq
        have : (p :: rest).dropLast = p :: rest.dropLast := by
          cases rest with
          | nil => exact absurd rfl hrest
          | cons q' t => rfl
        exact hmid q (by rw [this]; simp [hq])
      have hlen' : (acc ++ p.recs.map wrapRec).length = acc.length + p.recs.length := by
        simp
      have hstep : searchLoop io ep rk orig (some L)
          ((p :: rest).map (pageOutcome rk)) none cur acc pages total trace =
          searchLoop io ep rk orig (some L) (rest.map (pageOutcome rk)) none
            (dictSet cur "startRecord" (p.next.getD .jNull))
            (acc ++ p.recs.map wrapRec) (pages + 1)
            (match total with | none => pageTotal p | some t => some t)
            (trace ++ [cur]) := by
        simp only [List.map_cons, searchLoop, request_json_none_page,
          dictGet_pageDict_self rk p hrk.1, Option.getD_some, jList_or_empty,
          hunder, dictGet_pageDict_next rk p hrk.2, hp, if_true,
          pyGet_pageDict_total rk p hrk.1]
      have hmin : minPages (L.toNat - acc.length)
          ((p :: rest).map fun q => q.recs.length)
          = 1 + minPages (L.toNat - (acc ++ p.recs.map wrapRec).length)
              (rest.map fun q => q.recs.length) := by
        simp only [List.map_cons, minPages]
        rw [if_neg (by omega), hlen']
        congr 1
        congr 1
        omega
      rw [hstep, hmin]
      clear hstep
      generalize (match total with | none => pageTotal p | some t => some t) = total'
      obtain ⟨r, hres, htr, hrl, hrr, hpg, htl⟩ :=
        ih (dictSet cur "startRecord" (p.next.getD .jNull))
          (acc ++ p.recs.map wrapRec) (pages + 1) total' (trace ++ [cur])
          (by rw [hlen']; omega)
          (by rw [hlen']; push_cast at h2 ⊢; simp at h2 ⊢; omega)
          hmid'
      refine ⟨r, hres, htr, hrl, hrr, ?_, ?_⟩
      · rw [hpg]; omega
      · rw [htl]
        simp
        omega

/-- `minPages` is exactly the first page count at which the running record
total reaches `L`. -/
theorem minPages_spec (cs : List Nat) : ∀ L : Nat, 0 < L → L ≤ cs.sum →
    L ≤ (cs.take (minPages L cs)).sum
      ∧ ∀ m < minPages L cs, (cs.take m).sum < L := by
  induction cs with
  | nil => intro L h1 h2; simp at h2; omega
  | cons c cs ih =>
    intro L h1 h2
    by_cases hc : L ≤ c
    · constructor
      · simp [minPages, if_pos hc, List.take_succ_cons]
        omega
      · intro m hm
        simp only [minPages, if_pos hc] at hm
        have hm0 : m = 0 := by omega
        subst hm0
        simpa using h1
    · have h2' : L - c ≤ cs.sum := by simp at h2; omega
      obtain ⟨ha, hb⟩ := ih (L - c) (by omega) h2'
      constructor
      · simp only [minPages, if_neg hc]
        rw [Nat.add_comm 1, List.take_succ_cons]
        simp
        omega
      · intro m hm
        cases m with
        | zero => simpa using h1
        | succ m' =>
          simp only [minPages, if_neg hc] at hm
          have := hb m' (by omega)
          simp only [List.take_succ_cons, List.sum_cons]
          omega

/-- Pushing the `Nat` page-count sum through the `Int` coercion. -/
theorem sum_counts_cast (ps : List PageSpec) :
    (((ps.map fun p => p.recs.length).sum : Nat) : Int)
      = (ps.map fun p => (p.recs.length : Int)).sum := by
  induction ps with
  | nil => rfl
  | cons p rest ih => simp [ih]

/-- The total captured by the loop is the first page's, whenever the first
page's `totalRecords`, as Python reads it (a present `null` reads as
`None`), is an actual value. -/
theorem totalFold_first (init : List PageSpec) (last : PageSpec) (v : JVal)
    (hfirst : pageTotal (firstPage init last) = some v) :
    totalFold none (init ++ [last]) = some v := by
  cases init with
  | nil =>
    simp [firstPage] at hfirst
    simp [totalFold, hfirst]
  | cons p init' =>
    simp [firstPage] at hfirst
    simp [totalFold, hfirst, totalFold_some]

/-- Any run of the pagination loop only ever appends to the ghost trace of
per-page request parameters. -/
theorem searchLoop_trace_extends (io : Bool) (ep rk : String) (orig : Jdict)
    (limit : Option Int) :
    ∀ (server : List HttpOutcome) (fs : Option FS) (cur : Jdict)
      (acc : List JVal) (pages : Nat) (total : Option JVal) (trace : List Jdict),
    ∃ t, (searchLoop io ep rk orig limit server fs cur acc pages total trace).trace
      = trace ++ t := by
  intro server
  induction server with
  | nil =>
    intro fs cur acc pages total trace
    exact ⟨[], by simp [searchLoop]⟩
  | cons out rest ih =>
    intro fs cur acc pages total trace
    simp only [searchLoop]
    split
    · exact ⟨[cur], rfl⟩
    · split
      · split
        · exact ⟨[cur], rfl⟩
        · split
          · obtain ⟨t, ht⟩ := ih _ _ _ _ _ (trace ++ [cur])
            exact ⟨[cur] ++ t, by rw [ht]; simp⟩
          · exact ⟨[cur], rfl⟩
      · exact ⟨[cur], rfl⟩

/-- The first page fetch of any loop run uses exactly the initial
`cur_params`. -/
theorem searchLoop_first_params (io : Bool) (ep rk : String) (orig : Jdict)
    (limit : Option Int) (out : HttpOutcome) (rest : List HttpOutcome)
    (fs : Option FS) (cur : Jdict) (acc : List JVal) (pages : Nat)
    (total : Option JVal) :
    ∃ t, (searchLoop io ep rk orig limit (out :: rest) fs cur acc pages
        total []).trace = cur :: t := by
  simp only [searchLoop]
  split
  · exact ⟨[], rfl⟩
  · split
    · split
      · exact ⟨[], rfl⟩
      · split
        · obtain ⟨t, ht⟩ := searchLoop_trace_extends io ep rk orig limit rest
            _ _ _ _ _ ([] ++ [cur])
          exact ⟨t, by rw [ht]; simp⟩
        · exact ⟨[], rfl⟩
    · exact ⟨[], rfl⟩

/-!
## Claim theorems
-/

/-- C4: for every sequence of page responses in which pages `1..n-1` each
carry a truthy next-cursor and page `n` carries an absent or falsy (e.g.
zero-valued) cursor, `search_records` with no cap fetches exactly `n`
pages, reports `pages = n`, and returns `truncated = false`.  Here
`n = init.length + 1`. -/
theorem C4_pagination_termination (ep rk : String) (params : Jdict) (io : Bool)
    (init : List PageSpec) (last : PageSpec)
    (hrk : plainKey rk) (hcond : hasCondition params = true)
    (hmid : ∀ p ∈ init, jTruthyOpt p.next = true)
    (hlast : jTruthyOpt last.next = false) :
    ((search_records none io ep rk params none
        ((init ++ [last]).map (pageOutcome rk))).result.map
      fun r => (r.pages, r.truncated)) = .ok (init.length + 1, false)
    ∧ (search_records none io ep rk params none
        ((init ++ [last]).map (pageOutcome rk))).trace.length
      = init.length + 1 := by
  have hrun := searchLoop_uncapped io ep rk params hrk init last hmid hlast
    params [] 0 none []
  simp only [search_records, hcond, if_true, sanitize_limit]
  rw [hrun]
  simp [curTrace_length, Except.map]

/-- C5 counterexample: a two-page run whose first page reports no
`totalRecords` at all and whose second page reports 7.  The aggregated
result's total is 7 — taken from the second page — contradicting the
claim that the total is taken from the first page's response only,
including when the first page's total is absent.  The second conjunct
shows the same capture when the first page carries `"totalRecords": null`
(which `data.get` also reads as `None`). -/
theorem C5_counterexample :
    ((search_records none false "https://kokkai.ndl.go.jp/api/meeting_list"
        "meetingRecord" [("any", JVal.jStr "x")] none
        [pageOutcome "meetingRecord" { total := none, recs := [], next := some (.jInt 2) },
         pageOutcome "meetingRecord" { total := some (.jInt 7), recs := [], next := none }]).result.map
      fun r => r.totalRecords) = .ok (some (.jInt 7))
    ∧ ((search_records none false "https://kokkai.ndl.go.jp/api/meeting_list"
        "meetingRecord" [("any", JVal.jStr "x")] none
        [pageOutcome "meetingRecord" { total := some .jNull, recs := [], next := some (.jInt 2) },
         pageOutcome "meetingRecord" { total := some (.jInt 7), recs := [], next := none }]).result.map
      fun r => r.totalRecords) = .ok (some (.jInt 7)) :=
  ⟨rfl, rfl⟩

/-- C5 (amended): the reported total is taken from the first page whose
`totalRecords` decodes to a value that is not Python `None` — a present
JSON `null` decodes to `None` and, exactly like an absent key, does not
freeze the total.  Whenever the FIRST page's total reads as a value
(zero included), that value is frozen and every later page's total is
ignored; while the running total reads as `None` (absent or `null`), a
later page may supply it (the behavior the counterexample exhibits). -/
theorem C5_total_from_first_reporting_page (ep rk : String) (params : Jdict)
    (io : Bool) (init : List PageSpec) (last : PageSpec) (v : JVal)
    (hrk : plainKey rk) (hcond : hasCondition params = true)
    (hmid : ∀ p ∈ init, jTruthyOpt p.next = true)
    (hlast : jTruthyOpt last.next = false)
    (hfirst : pageTotal (firstPage init last) = some v) :
    ((search_records none io ep rk params none
        ((init ++ [last]).map (pageOutcome rk))).result.map
      fun r => r.totalRecords) = .ok (some v) := by
  have hrun := searchLoop_uncapped io ep rk params hrk init last hmid hlast
    params [] 0 none []
  simp only [search_records, hcond, if_true, sanitize_limit]
  rw [hrun]
  simp [totalFold_first init last v hfirst, Except.map]

/-- C2 counterexample: `_DietCore.search_records` is a call on the
paginated search path, yet the wire parameters of its first (and only)
page fetch are exactly the caller's params, with `startRecord` and
`maximumRecords` both still absent — no seeding happened before the first
fetch. -/
theorem C2_counterexample :
    (search_records none false "https://kokkai.ndl.go.jp/api/meeting_list"
        "meetingRecord" [("any", JVal.jStr "x")] none
        [pageOutcome "meetingRecord" { total := none, recs := [], next := none }]).trace
      = [[("any", JVal.jStr "x")]]
    ∧ dictGet [("any", JVal.jStr "x")] "startRecord" = none
    ∧ dictGet [("any", JVal.jStr "x")] "maximumRecords" = none :=
  ⟨rfl, rfl, rfl⟩

/-- C2 (amended): the seeding happens on the `DietSearchClient` search
paths (`_search_meetings` / `_search_speeches`): there, `startRecord`
defaults to 1 and `maximumRecords` to the endpoint default (10 for the
full-meeting endpoint, 100 otherwise) when absent, and present values are
kept.  `_DietCore.search_records` performs no seeding: the first page
fetch uses the caller's params unchanged. -/
theorem C2_seeding_amended :
    (∀ (full : Bool) (params : Jdict), dictGet params "startRecord" = none →
        dictGet (clientSeedParams full params) "startRecord" = some (.jInt 1))
    ∧ (∀ (full : Bool) (params : Jdict), dictGet params "maximumRecords" = none →
        dictGet (clientSeedParams full params) "maximumRecords"
          = some (.jInt (if full then 10 else 100)))
    ∧ (∀ (full : Bool) (params : Jdict) (v : JVal),
        dictGet params "startRecord" = some v →
        dictGet (clientSeedParams full params) "startRecord" = some v)
    ∧ (∀ (full : Bool) (params : Jdict) (v : JVal),
        dictGet params "maximumRecords" = some v →
        dictGet (clientSeedParams full params) "maximumRecords" = some v)
    ∧ (∀ (io : Bool) (ep rk : String) (params : Jdict) (out : HttpOutcome)
        (rest : List HttpOutcome), hasCondition params = true →
        (search_records none io ep rk params none (out :: rest)).trace.head?
          = some params) := by
  refine ⟨?_, ?_, ?_, ?_, ?_⟩
  · intro full params h
    have h1 : dictGet (dictSetDefault params "maximumRecords"
        (.jInt (if full then 10 else 100))) "startRecord" = none := by
      rw [dictGet_dictSetDefault_ne _ _ _ _ (by decide), h]
    simp only [clientSeedParams]
    rw [dictSetDefault_absent _ _ _ h1, dictGet_dictSet_self]
  · intro full params h
    simp only [clientSeedParams]
    rw [dictGet_dictSetDefault_ne _ _ _ _ (by decide)]
    cases hg : dictGet params "maximumRecords" with
    | none => rw [dictSetDefault_absent _ _ _ hg, dictGet_dictSet_self]
    | some v => rw [hg] at h; exact absurd h (by simp)
  · intro full params v h
    simp only [clientSeedParams]
    have h1 : dictGet (dictSetDefault params "maximumRecords"
        (.jInt (if full then 10 else 100))) "startRecord" = some v := by
      rw [dictGet_dictSetDefault_ne _ _ _ _ (by decide), h]
    rw [dictSetDefault_present _ _ _ _ h1, h1]
  · intro full params v h
    simp only [clientSeedParams]
    have h1 : dictGet (dictSetDefault params "maximumRecords"
        (.jInt (if full then 10 else 100))) "maximumRecords" = some v := by
      cases hg : dictGet params "maximumRecords" with
      | none => rw [hg] at h; exact absurd h (by simp)
      | some w =>
        rw [hg] at h
        rw [dictSetDefault_present _ _ _ _ hg, hg, h]
    rw [dictGet_dictSetDefault_ne _ _ _ _ (by decide), h1]
  · intro io ep rk params out rest hcond
    simp only [search_records, hcond, if_true, sanitize_limit]
    obtain ⟨t, ht⟩ := searchLoop_first_params io ep rk params none out rest
      none params [] 0 none
    rw [ht]
    rfl

/-- C1: for a positive cap `limit_total = L` with more than `L` records
available across the stub pages, `search_records` returns exactly `L`
records with `truncated = true`, returning as soon as the count reaches
`L`: it performs exactly `minPages L counts` page fetches, which is the
minimal number of pages whose record counts reach `L`. -/
theorem C1_cap_truncation (ep rk : String) (params : Jdict) (ps : List PageSpec)
    (io : Bool) (L : Nat)
    (hrk : plainKey rk) (hcond : hasCondition params = true) (hL : 0 < L)
    (hR : L < (ps.map fun p => p.recs.length).sum)
    (hmid : ∀ p ∈ ps.dropLast, jTruthyOpt p.next = true) :
    ((search_records none io ep rk params (some (L : Int))
        (ps.map (pageOutcome rk))).result.map
      fun r => (r.truncated, r.records.length, r.retrievedRecords, r.pages))
      = .ok (true, L, L, minPages L (ps.map fun p => p.recs.length))
    ∧ (search_records none io ep rk params (some (L : Int))
        (ps.map (pageOutcome rk))).trace.length
      = minPages L (ps.map fun p => p.recs.length)
    ∧ L ≤ ((ps.map fun p => p.recs.length).take
        (minPages L (ps.map fun p => p.recs.length))).sum
    ∧ ∀ m < minPages L (ps.map fun p => p.recs.length),
        ((ps.map fun p => p.recs.length).take m).sum < L := by
  have hsan : sanitize_limit (some (L : Int)) = .ok (some (L : Int)) := by
    simp only [sanitize_limit, if_neg (by omega : ¬((L : Int) ≤ 0))]
  have h2 : (([] : List JVal).length : Int)
      < (L : Int) := by simp; omega
  have h3 : (L : Int) ≤ (([] : List JVal).length : Int)
      + (ps.map fun p => ((p.recs.length : Nat) : Int)).sum := by
    have hcast := sum_counts_cast ps
    have hnat : (L : Int) ≤ (((ps.map fun p => p.recs.length).sum : Nat) : Int) := by
      exact_mod_cast hR.le
    rw [hcast] at hnat
    simpa using hnat
  obtain ⟨r, hres, htr, hrl, hrr, hpg, htl⟩ :=
    searchLoop_capped io ep rk params hrk (L : Int) (by omega) ps
      params [] 0 none [] h2 h3 hmid
  have htn : ((L : Int)).toNat = L := Int.toNat_natCast L
  obtain ⟨hmp1, hmp2⟩ := minPages_spec (ps.map fun p => p.recs.length) L hL hR.le
  refine ⟨?_, ?_, hmp1, hmp2⟩
  · simp only [search_records, hcond, if_true, hsan]
    rw [hres]
    simp only [Except.map]
    rw [htr, hrl, hrr, hpg, htn]
    simp
  · simp only [search_records, hcond, if_true, hsan]
    rw [htl, htn]
    simp

/-- C3 counterexample: the limit-normalization operation on the
`DietSearchClient` path maps the non-positive value 0 to `None` — the
very value that means "unbounded" — instead of failing with a
RequestError, so on that path the search proceeds as unbounded: the claim
that every `limit_total ≤ 0` makes the search fail is false there. -/
theorem C3_counterexample :
    client_sanitize_limit (some 0) = none
    ∧ client_sanitize_limit none = none :=
  ⟨rfl, rfl⟩

/-- C3 (amended): `None` means unbounded on both paths.  For
`limit_total ≤ 0`, the `_DietCore` path (`sanitize_limit`, used by
`search_records`) raises `DietSearchRequestError` ("limit_total must be
positive"), aborting the search before any page fetch; the
`DietSearchClient._sanitize_limit` path silently treats the value as
unbounded. -/
theorem C3_limit_normalization_amended (L : Int) (hL : L ≤ 0) :
    sanitize_limit none = .ok none
    ∧ client_sanitize_limit none = none
    ∧ sanitize_limit (some L)
        = .error (.requestError ("limit_total must be positive: " ++ toString L))
    ∧ isaRequestError
        (.requestError ("limit_total must be positive: " ++ toString L)) = true
    ∧ client_sanitize_limit (some L) = none
    ∧ ∀ (cd : Option FS) (io : Bool) (ep rk : String) (params : Jdict)
        (server : List HttpOutcome), hasCondition params = true →
        (search_records cd io ep rk params (some L) server).result
          = .error (.requestError ("limit_total must be positive: " ++ toString L))
        ∧ (search_records cd io ep rk params (some L) server).trace = [] := by
  refine ⟨rfl, rfl, ?_, rfl, ?_, ?_⟩
  · simp [sanitize_limit, hL]
  · simp [client_sanitize_limit, hL]
  · intro cd io ep rk params server hcond
    have hsan : sanitize_limit (some L)
        = .error (.requestError ("limit_total must be positive: " ++ toString L)) := by
      simp [sanitize_limit, hL]
    constructor <;> simp [search_records, hcond, hsan]

/-- C6: outcome classification of `_DietCore._request_json` on a cache
miss, in the source's precedence: transport exception → RequestError;
HTTP 429 → RateLimitError (an APIError by `isinstance`, its details the
stripped body truncated to 500 characters); any other non-200 status →
APIError that is not a RateLimitError; status 200 with an undecodable
body → ParseError (a RequestError by `isinstance`); and the cache state
is modified only by the successful decoded network fetch, which stores
the fetched data. -/
theorem C6_transport_classification (cacheDir : Option FS) (io : Bool)
    (ep : String) (params : Jdict)
    (hmiss : load_from_cache cacheDir ep params = none) :
    (∀ m, request_json cacheDir io ep params (.transportError m)
        = (.error (.requestError ("Request failed: " ++ m)), cacheDir)
      ∧ isaRequestError (.requestError ("Request failed: " ++ m)) = true)
    ∧ (∀ (body : String) (j : Except String Jdict),
        request_json cacheDir io ep params (.response 429 body j)
          = (.error (.rateLimitError ("HTTP 429 (rate limit exceeded) for " ++ ep)
              (bodyDetails body)), cacheDir)
        ∧ isaAPIError (.rateLimitError ("HTTP 429 (rate limit exceeded) for " ++ ep)
            (bodyDetails body)) = true)
    ∧ (∀ (status : Nat) (body : String) (j : Except String Jdict),
        status ≠ 429 → status ≠ 200 →
        request_json cacheDir io ep params (.response status body j)
          = (.error (.apiError ("HTTP " ++ toString status ++ " for " ++ ep)
              (bodyDetails body)), cacheDir)
        ∧ isaRateLimitError (.apiError ("HTTP " ++ toString status ++ " for " ++ ep)
            (bodyDetails body)) = false
        ∧ isaAPIError (.apiError ("HTTP " ++ toString status ++ " for " ++ ep)
            (bodyDetails body)) = true)
    ∧ (∀ (body : String) (e : String),
        request_json cacheDir io ep params (.response 200 body (.error e))
          = (.error (.parseError ("Failed to parse JSON response: " ++ e)), cacheDir)
        ∧ isaRequestError (.parseError ("Failed to parse JSON response: " ++ e)) = true)
    ∧ (∀ (body : String) (d : Jdict),
        request_json cacheDir io ep params (.response 200 body (.ok d))
          = (.ok d, save_to_cache cacheDir io ep params d))
    ∧ (∀ out : HttpOutcome,
        (request_json cacheDir io ep params out).2 ≠ cacheDir →
        ∃ d, (request_json cacheDir io ep params out).1 = .ok d
          ∧ (request_json cacheDir io ep params out).2
            = save_to_cache cacheDir io ep params d) := by
  refine ⟨?_, ?_, ?_, ?_, ?_, ?_⟩
  · intro m
    exact ⟨by simp [request_json, hmiss], rfl⟩
  · intro body j
    exact ⟨by simp [request_json, hmiss], rfl⟩
  · intro status body j h429 h200
    exact ⟨by simp [request_json, hmiss, h429, h200], rfl, rfl⟩
  · intro body e
    exact ⟨by simp [request_json, hmiss], rfl⟩
  · intro body d
    simp [request_json, hmiss]
  · intro out hne
    cases out with
    | transportError m =>
      exact absurd (by simp [request_json, hmiss]) hne
    | response status body j =>
      by_cases h429 : status = 429
      · subst h429
        exact absurd (by simp [request_json, hmiss]) hne
      · by_cases h200 : status = 200
        · subst h200
          cases j with
          | error e => exact absurd (by simp [request_json, hmiss]) hne
          | ok d => exact ⟨d, by simp [request_json, hmiss], by simp [request_json, hmiss]⟩
        · exact absurd (by simp [request_json, hmiss, h429, h200]) hne

/-- C7: constructing a Query whose sixteen condition fields are all unset
or empty fails with the "condition is required" ValidationError, and a
Query with at least one condition field set to a non-empty value (in
particular exactly one) validates successfully — both decided purely at
construction, before any network interaction (the query model has no
transport access). -/
theorem C7_condition_requirement (q : QueryFields)
    (hs : ge1 q.start_record = true) (hm : ge1 q.maximum_records = true)
    (hp : validPacking q.record_packing = true) :
    (condSatisfied q = false →
      validateBaseQuery q = .error "At least one search condition is required.")
    ∧ (condSatisfied q = true → validateBaseQuery q = .ok q) := by
  constructor <;> intro h <;>
    simp [validateBaseQuery, validateQuery, hs, hm, hp, h]

/-- C8: the page-size ceiling is enforced at Query construction per
endpoint: `maximum_records = 11` on the full-meeting-text query
(`MeetingQuery`) fails while 10 succeeds, and 101 on `MeetingListQuery`
and `SpeechQuery` fails while 100 succeeds. -/
theorem C8_ceiling_enforcement (q : QueryFields)
    (hs : ge1 q.start_record = true) (hp : validPacking q.record_packing = true)
    (hc : condSatisfied q = true) :
    validateMeetingQuery { q with maximum_records := some 11 }
      = .error "meeting maximum_records must be 1..10"
    ∧ validateMeetingQuery { q with maximum_records := some 10 }
      = .ok { q with maximum_records := some 10 }
    ∧ validateMeetingListQuery { q with maximum_records := some 101 }
      = .error "meeting_list maximum_records must be 1..100"
    ∧ validateMeetingListQuery { q with maximum_records := some 100 }
      = .ok { q with maximum_records := some 100 }
    ∧ validateSpeechQuery { q with maximum_records := some 101 }
      = .error "speech maximum_records must be 1..100"
    ∧ validateSpeechQuery { q with maximum_records := some 100 }
      = .ok { q with maximum_records := some 100 } := by
  have hc' : ∀ x : Option Int, condSatisfied { q with maximum_records := x } = true :=
    fun x => hc
  have g11 : ge1 (some (11 : Int)) = true := by decide
  have g10 : ge1 (some (10 : Int)) = true := by decide
  have g101 : ge1 (some (101 : Int)) = true := by decide
  have g100 : ge1 (some (100 : Int)) = true := by decide
  refine ⟨?_, ?_, ?_, ?_, ?_, ?_⟩ <;>
    simp [validateMeetingQuery, validateMeetingListQuery, validateSpeechQuery,
      validateQuery, hs, hp, hc', g11, g10, g101, g100]

/-- C9: the cache layer is strictly best-effort: `get` is absent both for
an unknown key and for an entry whose contents do not decode; `put` is a
total operation that leaves the store unchanged when the underlying write
fails (no exception propagates); with no cache directory configured `get`
is always absent and `put` is a silent no-op; and a corrupted entry makes
`_request_json` classify exactly as it would with no cache at all — the
fetch proceeds via network. -/
theorem C9_cache_best_effort :
    (∀ (fs : FS) (ep : String) (params : Jdict),
        fsLookup fs (cache_key ep params) = none →
        load_from_cache (some fs) ep params = none)
    ∧ (∀ (fs : FS) (ep : String) (params : Jdict),
        fsLookup fs (cache_key ep params) = some .corrupt →
        load_from_cache (some fs) ep params = none)
    ∧ (∀ (fs : FS) (ep : String) (params : Jdict) (d : Jdict),
        save_to_cache (some fs) true ep params d = some fs)
    ∧ (∀ (ep : String) (params : Jdict), load_from_cache none ep params = none)
    ∧ (∀ (io : Bool) (ep : String) (params : Jdict) (d : Jdict),
        save_to_cache none io ep params d = none)
    ∧ (∀ (fs : FS) (io : Bool) (ep : String) (params : Jdict) (out : HttpOutcome),
        fsLookup fs (cache_key ep params) = some .corrupt →
        (request_json (some fs) io ep params out).1
          = (request_json none io ep params out).1) := by
  refine ⟨?_, ?_, ?_, ?_, ?_, ?_⟩
  · intro fs ep params h; simp [load_from_cache, h]
  · intro fs ep params h; simp [load_from_cache, h]
  · intro fs ep params d; simp [save_to_cache, writeFileModel]
  · intro ep params; rfl
  · intro io ep params d; rfl
  · intro fs io ep params out h
    have hl : load_from_cache (some fs) ep params = none := by
      simp [load_from_cache, h]
    have hl0 : load_from_cache none ep params = none := rfl
    cases out with
    | transportError m => simp [request_json, hl, hl0]
    | response status body j =>
      by_cases h429 : status = 429
      · subst h429; simp [request_json, hl, hl0]
      · by_cases h200 : status = 200
        · subst h200
          cases j with
          | error e => simp [request_json, hl, hl0]
          | ok d => simp [request_json, hl, hl0]
        · simp [request_json, hl, hl0, h429, h200]

/-- C10: when no condition key among the sixteen is present with a value
other than `None`/`""`, `search_records` raises the
`DietSearchAPIError`-kind error "検索条件を指定してください。" — which by
`isinstance` is an API error and not a `DietSearchRequestError` (and is a
transport-taxonomy exception, not a pydantic Query ValidationError) —
before anything else: the fetch trace is empty (so no page fetch and no
cache read, both of which happen only inside `_request_json`) and the
cache state is unchanged. -/
theorem C10_condition_check_precedes_fetch (cacheDir : Option FS) (io : Bool)
    (ep rk : String) (params : Jdict) (limit : Option Int)
    (server : List HttpOutcome)
    (h : ∀ k ∈ conditionKeys, ∀ v, dictGet params k = some v → isCondVal v = false) :
    (search_records cacheDir io ep rk params limit server).result
      = .error (.apiError "検索条件を指定してください。" [])
    ∧ (search_records cacheDir io ep rk params limit server).trace = []
    ∧ (search_records cacheDir io ep rk params limit server).fs = cacheDir
    ∧ isaAPIError (.apiError "検索条件を指定してください。" []) = true
    ∧ isaRequestError (.apiError "検索条件を指定してください。" []) = false := by
  have hcond : hasCondition params = false := by
    rw [hasCondition, List.any_eq_false]
    intro k hk
    cases hd : dictGet params k with
    | none => simp
    | some v => simpa [hd] using h k hk v hd
  refine ⟨?_, ?_, ?_, rfl, rfl⟩ <;> simp [search_records, hcond]

/-!
## Witnesses
-/

theorem C1_witness :
    ((search_records none false "e" "meetingRecord" [("any", JVal.jStr "x")]
        (some ((2 : Nat) : Int))
        (([{ total := none, recs := [JVal.jNull], next := some (.jInt 2) },
           { total := none, recs := [JVal.jNull, JVal.jNull], next := none }] :
            List PageSpec).map (pageOutcome "meetingRecord"))).result.map
      fun r => (r.truncated, r.records.length, r.retrievedRecords, r.pages))
      = .ok (true, 2, 2,
          minPages 2 (([{ total := none, recs := [JVal.jNull], next := some (.jInt 2) },
            { total := none, recs := [JVal.jNull, JVal.jNull], next := none }] :
              List PageSpec).map fun p => p.recs.length)) :=
  (C1_cap_truncation "e" "meetingRecord" [("any", JVal.jStr "x")]
    [{ total := none, recs := [JVal.jNull], next := some (.jInt 2) },
     { total := none, recs := [JVal.jNull, JVal.jNull], next := none }]
    false 2 (by constructor <;> decide) (by decide) (by decide) (by decide)
    (by decide)).1

theorem C2_witness :
    dictGet (clientSeedParams false [("any", JVal.jStr "x")]) "startRecord"
      = some (.jInt 1)
    ∧ dictGet (clientSeedParams false [("any", JVal.jStr "x")]) "maximumRecords"
      = some (.jInt 100)
    ∧ (search_records none false "e" "meetingRecord" [("any", JVal.jStr "x")] none
        [pageOutcome "meetingRecord" {}]).trace.head?
      = some [("any", JVal.jStr "x")] :=
  ⟨C2_seeding_amended.1 false [("any", JVal.jStr "x")] rfl,
   C2_seeding_amended.2.1 false [("any", JVal.jStr "x")] rfl,
   C2_seeding_amended.2.2.2.2 false "e" "meetingRecord" [("any", JVal.jStr "x")]
     (pageOutcome "meetingRecord" {}) [] (by decide)⟩

theorem C3_witness :
    sanitize_limit (some 0)
      = .error (.requestError ("limit_total must be positive: " ++ toString (0 : Int)))
    ∧ client_sanitize_limit (some 0) = none :=
  ⟨(C3_limit_normalization_amended 0 (by decide)).2.2.1,
   (C3_limit_normalization_amended 0 (by decide)).2.2.2.2.1⟩

theorem C4_witness :
    ((search_records none false "e" "meetingRecord" [("any", JVal.jStr "x")] none
        ((([{ total := some (.jInt 3), recs := [JVal.jObj []], next := some (.jInt 2) }] :
            List PageSpec)
          ++ ([{ total := none, recs := [JVal.jObj []], next := none }] :
            List PageSpec)).map
            (pageOutcome "meetingRecord"))).result.map
      fun r => (r.pages, r.truncated)) = .ok (2, false) :=
  (C4_pagination_termination "e" "meetingRecord" [("any", JVal.jStr "x")] false
    [{ total := some (.jInt 3), recs := [JVal.jObj []], next := some (.jInt 2) }]
    { total := none, recs := [JVal.jObj []], next := none }
    (by constructor <;> decide) (by decide) (by decide) (by decide)).1

theorem C5_witness :
    ((search_records none false "e" "meetingRecord" [("any", JVal.jStr "x")] none
        ((([{ total := some (.jInt 5), recs := [], next := some (.jInt 2) }] :
            List PageSpec)
          ++ ([{ total := some (.jInt 9), recs := [], next := none }] :
            List PageSpec)).map
            (pageOutcome "meetingRecord"))).result.map
      fun r => r.totalRecords) = .ok (some (.jInt 5)) :=
  C5_total_from_first_reporting_page "e" "meetingRecord" [("any", JVal.jStr "x")]
    false
    [{ total := some (.jInt 5), recs := [], next := some (.jInt 2) }]
    { total := some (.jInt 9), recs := [], next := none } (.jInt 5)
    (by constructor <;> decide) (by decide) (by decide) (by decide) rfl

theorem C6_witness :
    request_json none false "e" [] (.response 429 "slow down" (.ok []))
      = (.error (.rateLimitError ("HTTP 429 (rate limit exceeded) for " ++ "e")
          (bodyDetails "slow down")), none)
    ∧ request_json none false "e" [] (.response 500 "boom" (.ok []))
      = (.error (.apiError ("HTTP " ++ toString (500 : Nat) ++ " for " ++ "e")
          (bodyDetails "boom")), none) :=
  ⟨((C6_transport_classification none false "e" [] rfl).2.1 "slow down" (.ok [])).1,
   ((C6_transport_classification none false "e" [] rfl).2.2.1 500 "boom" (.ok [])
     (by decide) (by decide)).1⟩

theorem C7_witness :
    validateBaseQuery {} = .error "At least one search condition is required."
    ∧ validateBaseQuery { any := some "education" }
      = .ok { any := some "education" } :=
  ⟨(C7_condition_requirement {} rfl rfl rfl).1 rfl,
   (C7_condition_requirement { any := some "education" } rfl rfl rfl).2 rfl⟩

theorem C8_witness :
    validateMeetingQuery { any := some "x", maximum_records := some 11 }
      = .error "meeting maximum_records must be 1..10"
    ∧ validateMeetingQuery { any := some "x", maximum_records := some 10 }
      = .ok { any := some "x", maximum_records := some 10 }
    ∧ validateMeetingListQuery { any := some "x", maximum_records := some 101 }
      = .error "meeting_list maximum_records must be 1..100"
    ∧ validateSpeechQuery { any := some "x", maximum_records := some 100 }
      = .ok { any := some "x", maximum_records := some 100 } :=
  ⟨(C8_ceiling_enforcement { any := some "x" } rfl rfl rfl).1,
   (C8_ceiling_enforcement { any := some "x" } rfl rfl rfl).2.1,
   (C8_ceiling_enforcement { any := some "x" } rfl rfl rfl).2.2.1,
   (C8_ceiling_enforcement { any := some "x" } rfl rfl rfl).2.2.2.2.2⟩

theorem C9_witness :
    load_from_cache (some [(cache_key "e" [], FileData.corrupt)]) "e" [] = none
    ∧ save_to_cache (some []) true "e" [] [] = some []
    ∧ load_from_cache none "e" [] = none
    ∧ (request_json (some [(cache_key "e" [], FileData.corrupt)]) false "e" []
        (.response 200 "" (.ok [("numberOfRecords", .jInt 0)]))).1
      = (request_json none false "e" []
        (.response 200 "" (.ok [("numberOfRecords", .jInt 0)]))).1 :=
  ⟨C9_cache_best_effort.2.1 [(cache_key "e" [], FileData.corrupt)] "e" [] (by simp [fsLookup]),
   C9_cache_best_effort.2.2.1 [] "e" [] [],
   C9_cache_best_effort.2.2.2.1 "e" [],
   C9_cache_best_effort.2.2.2.2.2 [(cache_key "e" [], FileData.corrupt)] false "e" []
     (.response 200 "" (.ok [("numberOfRecords", .jInt 0)])) (by simp [fsLookup])⟩

theorem C10_witness :
    (search_records none false "e" "meetingRecord" [] none []).result
      = .error (.apiError "検索条件を指定してください。" [])
    ∧ (search_records none false "e" "meetingRecord" [] none []).trace = [] :=
  ⟨(C10_condition_check_precedes_fetch none false "e" "meetingRecord" [] none []
      (by intro k hk v hv; simp [dictGet] at hv)).1,
   (C10_condition_check_precedes_fetch none false "e" "meetingRecord" [] none []
      (by intro k hk v hv; simp [dictGet] at hv)).2.1⟩

end JpDiet
